import Mathlib

/-!
Verification of the Phoenix warm-up engine (`phoenix_warmup`).

This file shallowly embeds the decision logic of the warm-up engine:

* `core/ramp_logic.py` — pure ramp-policy functions (daily limits, gates,
  bounce threshold, stage progression);
* `core/warmup_engine.py` — per-inbox processing, success and failure
  handling;
* `core/reply_engine.py` — the reply gate (subject denylist);
* `storage/inbox_store.py`, `storage/recipient_store.py`,
  `storage/log_store.py` — the CSV-backed stores, modelled as pure
  transformations of row lists;
* `scheduler.py` — the scheduler lifecycle wrapper, over a model of the
  documented APScheduler state machine.

Conventions of the embedding:

* Python `int` counters are `Nat` (they are non-negative in every reachable
  state and all arithmetic is addition/comparison).
* Clock times of day are minutes since midnight (`Nat`), matching the
  `h * 60 + m` conversion performed by `within_working_hours`.
* Randomness (the interval-gate delay draw, the reply-rate draw) and the
  wall clock (`datetime.now()`) are passed in as explicit oracle arguments.
* The float bounce-rate arithmetic is modelled over `ℚ`; the quantities the
  program compares (small counts divided by small counts against a decimal
  threshold) are exact in `ℚ`.
* Fallible operations return `Option`/`Except`; exceptions that the source
  swallows (`try/except: pass`) are modelled by total fallback behaviour.
-/

/-! ## `core/ramp_logic.py` -/

/-- `STAGE_LIMITS` lookup with the `.get(stage, STAGE_LIMITS[1])` fallback:
stage → emails-per-day limit, unknown stages fall back to stage 1's limit. -/
def get_daily_limit (stage : Nat) : Nat :=
  match stage with
  | 1 => 5
  | 2 => 15
  | 3 => 25
  | 4 => 40
  | _ => 5

/-- `next_stage`: the next stage, capped at `MAX_STAGE = 4`. -/
def next_stage (current_stage : Nat) : Nat :=
  min (current_stage + 1) 4

/-- `within_working_hours`, with the `'HH:MM'` strings already converted to
minutes since midnight (the function itself works on `h * 60 + m` values).
Source: `if start <= end: return start <= current_minutes <= end` else
`return current_minutes >= start or current_minutes <= end`. -/
def within_working_hours (start_min end_min now_min : Nat) : Bool :=
  if start_min ≤ end_min then
    decide (start_min ≤ now_min ∧ now_min ≤ end_min)
  else
    decide (now_min ≥ start_min ∨ now_min ≤ end_min)

/-- The membership predicate the specification describes for
`withinWorkingHours`: the half-open interval `[start, end)`, wrapping past
midnight when `start > end`. Stated from the spec's words, to be compared
with the source-derived `within_working_hours`. -/
def memHalfOpenWindow (start_min end_min now_min : Nat) : Prop :=
  if start_min ≤ end_min then
    start_min ≤ now_min ∧ now_min < end_min
  else
    now_min ≥ start_min ∨ now_min < end_min

instance (s e n : Nat) : Decidable (memHalfOpenWindow s e n) :=
  if h : s ≤ e then
    decidable_of_iff (s ≤ n ∧ n < e) (by simp [memHalfOpenWindow, h])
  else
    decidable_of_iff (n ≥ s ∨ n < e) (by simp [memHalfOpenWindow, h])

/-- `check_bounce_threshold`, with the dict fields (`daily_sent`,
`bounced_today`) and the `BOUNCE_THRESHOLD` environment value passed as
arguments. Source: `if sent == 0: return False; return (bounced / sent) >
threshold`. The float division is modelled exactly over `ℚ`. -/
def check_bounce_threshold (sent bounced : Nat) (threshold : ℚ) : Bool :=
  if sent = 0 then false
  else decide ((bounced : ℚ) / (sent : ℚ) > threshold)

/-- Gregorian leap-year test, as `datetime`'s calendar uses it. -/
def isLeapYear (y : Nat) : Bool :=
  y % 4 == 0 && (y % 100 != 0 || y % 400 == 0)

/-- Number of days in month `m` of year `y` (the `datetime` constructor's
day-range validation, leap years included). -/
def days_in_month (y m : Nat) : Nat :=
  if m == 2 then (if isLeapYear y then 29 else 28)
  else if m == 4 || m == 6 || m == 9 || m == 11 then 30
  else 31

/-- Days of year `y` that precede the first of month `m`. -/
def daysBeforeMonth (y m : Nat) : Nat :=
  (match m with
   | 1 => 0 | 2 => 31 | 3 => 59 | 4 => 90 | 5 => 120 | 6 => 151
   | 7 => 181 | 8 => 212 | 9 => 243 | 10 => 273 | 11 => 304 | _ => 334)
  + (if 3 ≤ m && isLeapYear y then 1 else 0)

/-- `date(y, m, d).toordinal() - 1`: days since 0001-01-01 on the
proleptic Gregorian calendar, so that differences of parsed timestamps
equal real `datetime` differences (to the second). -/
def toOrdinal (y m d : Nat) : Nat :=
  365 * (y - 1) + (y - 1) / 4 - (y - 1) / 100 + (y - 1) / 400
    + daysBeforeMonth y m + (d - 1)

/-- Character of a NUL-terminated C string at index `i`: positions past the
end read as `'\\x00'`, exactly as the CPython parser sees them. -/
def atC (cs : List Char) (i : Nat) : Char :=
  cs.getD i (Char.ofNat 0)

/-- ASCII digit test (`is_digit` in the C parser; NUL is not a digit). -/
def isDig (c : Char) : Bool :=
  decide (48 ≤ c.toNat ∧ c.toNat ≤ 57)

/-- `parse_digits(p, val, 2)`: two ASCII digits at index `p`. -/
def twoDigAt (cs : List Char) (p : Nat) : Option Nat :=
  if isDig (atC cs p) && isDig (atC cs (p + 1)) then
    some (((atC cs p).toNat - 48) * 10 + ((atC cs (p + 1)).toNat - 48))
  else none

/-- Length of the leading run of ASCII digits. -/
def countDigits : List Char → Nat
  | [] => 0
  | c :: rest => if isDig c then countDigits rest + 1 else 0

/-- Number of ISO weeks in ISO year `y`: 53 exactly when the year starts
on a Thursday, or is a leap year starting on a Wednesday
(`_isoweek_to_gregorian`'s week-53 test; `toOrdinal _ % 7` is the
weekday with Monday = 0). -/
def weeks_in_iso_year (y : Nat) : Nat :=
  let jan1 := toOrdinal y 1 1 % 7
  if jan1 == 3 || (isLeapYear y && jan1 == 2) then 53 else 52

/-- Ordinal (days since 0001-01-01) of ISO week-date `(y, w, d)`: the
Monday of the week containing January 4 plus the offset. -/
def iso_week_ordinal (y w d : Nat) : Nat :=
  let j4 := toOrdinal y 1 4
  (j4 - j4 % 7) + (w - 1) * 7 + (d - 1)

/-- `toOrdinal 9999 12 31`: the largest representable date
(`datetime.MAXYEAR`); ISO week dates resolving past it raise. -/
def MAX_ORDINAL : Nat := 3652058

/-- `_find_isoformat_datetime_separator`: from the shape of the first few
characters alone, the length of the date portion (7, 8 or 10); the
character right after it, whatever it is, is the date–time separator.
`none` is the explicitly rejected 9-character `YYYY-Www-` shape. For
compact week dates the digit-run parity after `YYYYWww` decides whether a
week-day digit is present. -/
def find_sep (cs : List Char) : Option Nat :=
  let n := cs.length
  if n == 7 then some 7
  else if atC cs 4 == '-' then
    if atC cs 5 == 'W' then
      if n > 8 then
        if atC cs 8 == '-' then
          if n == 9 then none
          else if n > 10 then
            if isDig (atC cs 10) then some 8 else some 10
          else some 10
        else some 8
      else some 8
    else some 10
  else if atC cs 4 == 'W' then
    let idx := 7 + countDigits (cs.drop 7)
    if idx < 9 then some idx
    else if idx % 2 == 0 then some 7 else some 8
  else some 8

/-- The ISO week-date validation and conversion of
`_isoweek_to_gregorian`: week within the year's ISO week count (53 only
in long years), day 1–7, and the resolved date within year 9999. -/
def week_date_ordinal (y w d : Nat) : Option Nat :=
  if 1 ≤ y ∧ 1 ≤ w ∧ w ≤ weeks_in_iso_year y ∧ 1 ≤ d ∧ d ≤ 7 then
    let o := iso_week_ordinal y w d
    if o ≤ MAX_ORDINAL then some o else none
  else none

/-- `parse_isoformat_date` on the date portion `ds` of expected length
`L` of 7, 8 or 10: `YYYY-MM-DD`/`YYYYMMDD` calendar dates and
`YYYY-Www[-D]`/`YYYYWww[D]` week dates, with consistent dash use, strict
two-digit fields, and the `date` constructor's validation (year ≥ 1,
month 1–12, day within the month, leap years included). -/
def parse_date (ds : List Char) (L : Nat) : Option Nat :=
  if ds.length ≠ L then none
  else
    match twoDigAt ds 0, twoDigAt ds 2 with
    | some yh, some yl =>
      let y := yh * 100 + yl
      let hasSep := atC ds 4 == '-'
      let pos := if hasSep then 5 else 4
      if atC ds pos == 'W' then
        match twoDigAt ds (pos + 1) with
        | none => none
        | some w =>
          let pos2 := pos + 3
          if pos2 == L then week_date_ordinal y w 1
          else if pos2 < L then
            if (atC ds pos2 == '-') != hasSep then none
            else
              let pos3 := if hasSep then pos2 + 1 else pos2
              if isDig (atC ds pos3) then
                if pos3 + 1 == L then
                  week_date_ordinal y w ((atC ds pos3).toNat - 48)
                else none
              else none
          else none
      else
        match twoDigAt ds pos with
        | none => none
        | some mo =>
          if (atC ds (pos + 2) == '-') != hasSep then none
          else
            let pos3 := if hasSep then pos + 3 else pos + 2
            match twoDigAt ds pos3 with
            | none => none
            | some d =>
              if pos3 + 2 == L then
                if 1 ≤ y ∧ 1 ≤ mo ∧ mo ≤ 12 ∧ 1 ≤ d ∧ d ≤ days_in_month y mo then
                  some (toOrdinal y mo d)
                else none
              else none
    | _, _ => none

/-- The fractional-seconds step of `parse_hh_mm_ss_ff` starting at index
`p` of the (time or offset) portion `T`: the next `min 6 (n - p)`
characters must all be digits; further digits are skipped; whatever
follows after that is accepted only when a timezone marker delimits the
portion (`tz`), since the parse must otherwise end exactly at the NUL. -/
def fracOk (T : List Char) (tz : Bool) (p : Nat) : Bool :=
  let n := T.length
  let k := min 6 (n - p)
  ((T.drop p).take k).all isDig &&
    (tz || (p + k + countDigits (T.drop (p + k))) == n)

/-- Third component (seconds) of `parse_hh_mm_ss_ff`, at index `p` with
separator mode `hasSep`. When fewer than two characters remain after the
component, the loop stops, silently consuming at most one character —
accepted as-is when a timezone marker delimits the portion, and only on
a clean end (at the NUL) otherwise. After the component, `:` (separated
mode), `.` or `,` start the fractional part one position later; in
compact mode the fraction starts right away. -/
def hms_comp2 (T : List Char) (tz hasSep : Bool) (h mi p : Nat) :
    Option (Nat × Nat × Nat) :=
  let n := T.length
  match twoDigAt T p with
  | none => none
  | some se =>
    if p + 3 ≥ n then
      if tz || decide (p + 2 ≥ n) then some (h, mi, se) else none
    else
      let c := atC T (p + 2)
      if c == ':' then
        if hasSep then
          if fracOk T tz (p + 3) then some (h, mi, se) else none
        else none
      else if c == '.' || c == ',' then
        if fracOk T tz (p + 3) then some (h, mi, se) else none
      else if hasSep then none
      else if fracOk T tz (p + 2) then some (h, mi, se) else none

/-- Second component (minutes) of `parse_hh_mm_ss_ff`; same boundary and
dispatch rules as `hms_comp2`. -/
def hms_comp1 (T : List Char) (tz hasSep : Bool) (h p : Nat) :
    Option (Nat × Nat × Nat) :=
  let n := T.length
  match twoDigAt T p with
  | none => none
  | some mi =>
    if p + 3 ≥ n then
      if tz || decide (p + 2 ≥ n) then some (h, mi, 0) else none
    else
      let c := atC T (p + 2)
      if c == ':' then
        if hasSep then hms_comp2 T tz hasSep h mi (p + 3)
        else none
      else if c == '.' || c == ',' then
        if fracOk T tz (p + 3) then some (h, mi, 0) else none
      else if hasSep then none
      else hms_comp2 T tz hasSep h mi (p + 2)

/-- `parse_hh_mm_ss_ff` of CPython's C `_datetime` module on one time or
offset portion `T` (the characters before the timezone marker, when
`tz = true`): `HH[:MM[:SS]]` with colons or `HH[MM[SS]]` without (the
mode is fixed by the character after the hour), then an optional
fractional part. Returns the parsed components; the fraction's value is
validated but discarded (below this model's one-second scale). -/
def hmsff (T : List Char) (tz : Bool) : Option (Nat × Nat × Nat) :=
  let n := T.length
  match twoDigAt T 0 with
  | none => none
  | some h =>
    if 3 ≥ n then
      if tz || decide (2 ≥ n) then some (h, 0, 0) else none
    else
      let c := atC T 2
      let hasSep := c == ':'
      if c == ':' then hms_comp1 T tz hasSep h 3
      else if c == '.' || c == ',' then
        if fracOk T tz 3 then some (h, 0, 0) else none
      else hms_comp1 T tz hasSep h 2

/-- Index of the first timezone marker (`+`, `-` or `Z`) in the time
string, or its length when none occurs. -/
def tzScan : List Char → Nat
  | [] => 0
  | c :: rest => if c == '+' || c == '-' || c == 'Z' then 0 else tzScan rest + 1

/-- `parse_isoformat_time`: split at the first timezone marker; parse the
time portion (validated to hour ≤ 23, minute ≤ 59, second ≤ 59 by the
`datetime` constructor); `Z` must be the final character; a signed offset
is parsed with the same component grammar, must end cleanly, and its
total must stay strictly below 24 hours (`timezone`'s bound — the
offset's own minute/second fields are not range-limited). Returns the
seconds within the day and whether the stamp is offset-aware. -/
def parse_time_part (cs : List Char) : Option (Nat × Bool) :=
  let n := cs.length
  let m := tzScan cs
  if m == n then
    match hmsff cs false with
    | none => none
    | some (h, mi, se) =>
      if h ≤ 23 ∧ mi ≤ 59 ∧ se ≤ 59 then
        some (h * 3600 + mi * 60 + se, false)
      else none
  else
    match hmsff (cs.take m) true with
    | none => none
    | some (h, mi, se) =>
      if h ≤ 23 ∧ mi ≤ 59 ∧ se ≤ 59 then
        if atC cs m == 'Z' then
          if m + 1 == n then some (h * 3600 + mi * 60 + se, true) else none
        else
          match hmsff (cs.drop (m + 1)) false with
          | none => none
          | some (th, tm, ts) =>
            if th * 3600 + tm * 60 + ts < 86400 then
              some (h * 3600 + mi * 60 + se, true)
            else none
      else none

/-- A parsed timestamp: its naive value in seconds since 0001-01-01 on
the proleptic Gregorian calendar, and whether the string carried a UTC
offset (an aware `datetime`). -/
structure ParsedStamp where
  seconds : Nat
  aware : Bool
deriving Repr, DecidableEq

/-- Model of CPython 3.11's `datetime.fromisoformat` (the C
implementation that actually runs): strings of at least 7 characters
whose date portion is a calendar or ISO week date, dashed or compact,
followed optionally by any single separator character and a time with
optional fraction and optional `Z`/signed-offset timezone; `none` models
`ValueError`. Earlier CPython versions (3.7–3.10) accept a strict subset
of these strings — the documented inverse of `datetime.isoformat()`,
which includes every string this program itself writes — and agree with
this model on that subset, so a `none` here is a `ValueError` on every
supported version. -/
def parse_iso (s : String) : Option ParsedStamp :=
  let cs := s.data
  let n := cs.length
  if n < 7 then none
  else
    match find_sep cs with
    | none => none
    | some L =>
      match parse_date (cs.take L) L with
      | none => none
      | some o =>
        if n == L then some { seconds := o * 86400, aware := false }
        else
          match parse_time_part (cs.drop (L + 1)) with
          | none => none
          | some (daySecs, aware) =>
            some { seconds := o * 86400 + daySecs, aware := aware }

/-- `is_time_to_send`. `now_sec` models `datetime.now()` (as seconds on
the same scale as `parse_iso`) and `delay_draw` the random
`get_send_delay_seconds(stage)` draw. Source: empty `last_sent_at` →
`True`; `last_sent_at` on which `fromisoformat` raises `ValueError` →
`True`; otherwise `elapsed >= delay`. On an offset-aware stamp the parse
succeeds but the source's `datetime.now() - last` raises `TypeError`
(offset-naive minus offset-aware), which the surrounding
`except ValueError` does not catch — modelled as `.error`. -/
def is_time_to_send (last_sent_at : String) (now_sec delay_draw : Nat) :
    Except Unit Bool :=
  if last_sent_at = "" then .ok true
  else
    match parse_iso last_sent_at with
    | none => .ok true
    | some st =>
      if st.aware then .error ()
      else .ok (decide ((now_sec : Int) - (st.seconds : Int) ≥ (delay_draw : Int)))

/-! ## Claim theorems: ramp logic -/

/-- C1 (counterexample): the claim says `within_working_hours` is true
exactly on the half-open interval `[start, end)`; but at the window
08:00–20:00 (480–1200 minutes) and current time exactly 20:00 (1200), the
source returns `true` while 1200 is not in the half-open interval. -/
theorem within_working_hours_not_half_open :
    within_working_hours 480 1200 1200 = true ∧
      ¬ memHalfOpenWindow 480 1200 1200 := by
  constructor
  · decide
  · decide

/-- C1 (amended): `within_working_hours` is true exactly when the current
time lies in the **closed** interval `[start, end]`; for overnight windows
(`start > end`) the window wraps past midnight and is inclusive at both
edges: the time qualifies when it is at or after `start` or at or before
`end`. The spec's four examples (09:00 in 08:00–20:00; 21:00 out of it;
23:30 in 22:00–06:00; 12:00 out of it) all hold. -/
theorem within_working_hours_closed_interval :
    (∀ s e t : Nat, within_working_hours s e t = true ↔
      ((s ≤ e ∧ s ≤ t ∧ t ≤ e) ∨ (e < s ∧ (s ≤ t ∨ t ≤ e)))) ∧
    within_working_hours 480 1200 540 = true ∧
    within_working_hours 480 1200 1260 = false ∧
    within_working_hours 1320 360 1410 = true ∧
    within_working_hours 1320 360 720 = false := by
  refine ⟨fun s e t => ?_, by decide, by decide, by decide, by decide⟩
  unfold within_working_hours
  split <;> simp <;> omega

/-- C5: `check_bounce_threshold` is false when the sent count is 0, and
otherwise true exactly when `bounced / sent` strictly exceeds the
threshold; sent=20, bounced=2 exceeds threshold 0.05, while sent=100,
bounced=5 (exact equality) does not. -/
theorem check_bounce_threshold_spec :
    (∀ (sent bounced : Nat) (threshold : ℚ),
      check_bounce_threshold sent bounced threshold = true ↔
        (sent ≠ 0 ∧ (bounced : ℚ) / (sent : ℚ) > threshold)) ∧
    check_bounce_threshold 20 2 (5/100) = true ∧
    check_bounce_threshold 100 5 (5/100) = false := by
  refine ⟨fun sent bounced threshold => ?_, ?_, ?_⟩
  · unfold check_bounce_threshold
    split <;> simp_all
  · unfold check_bounce_threshold
    norm_num
  · unfold check_bounce_threshold
    norm_num

/-- C10: `is_time_to_send` returns true whenever the stored last-sent
timestamp is the empty string or is a string on which
`datetime.fromisoformat` raises `ValueError` (`parse_iso _ = none`): a
malformed timestamp is treated like no prior send, for every current time
and every drawn delay. -/
theorem is_time_to_send_malformed_true
    (last_sent_at : String) (now_sec delay_draw : Nat)
    (h : last_sent_at = "" ∨ parse_iso last_sent_at = none) :
    is_time_to_send last_sent_at now_sec delay_draw = .ok true := by
  unfold is_time_to_send
  rcases h with h | h
  · simp [h]
  · by_cases he : last_sent_at = ""
    · simp [he]
    · simp [he, h]

/-- C10 witness: the empty string and two genuinely malformed stamps — the
non-date `"not-a-date"` and the calendar-invalid `"2024-02-31T12:00:00"`
(February has no 31st; `fromisoformat` raises `ValueError` on it) — all
pass the interval gate; while the well-formed stamps `"9999-01-01"`
(date-only), `"2024-01-01T12:00"` (no seconds) and
`"2024-01-01T12:00:00.123456"` (fractional seconds) parse, so they fall
to the elapsed-time comparison instead — in particular the future-dated
`"9999-01-01"` blocks the gate, and an offset-aware stamp hits the
uncaught naive-minus-aware `TypeError`, not the parse-failure path. -/
theorem is_time_to_send_malformed_true_witness :
    is_time_to_send "" 1000 600 = .ok true ∧
    (parse_iso "not-a-date" = none ∧
      is_time_to_send "not-a-date" 1000 600 = .ok true) ∧
    (parse_iso "2024-02-31T12:00:00" = none ∧
      is_time_to_send "2024-02-31T12:00:00" 1000 600 = .ok true) ∧
    (parse_iso "9999-01-01").isSome = true ∧
    (parse_iso "2024-01-01T12:00").isSome = true ∧
    (parse_iso "2024-01-01T12:00:00.123456").isSome = true ∧
    is_time_to_send "9999-01-01" 1000 600 = .ok false ∧
    is_time_to_send "2024-01-01T12:00:00+05:00" 1000 600 = .error () :=
  ⟨is_time_to_send_malformed_true "" 1000 600 (Or.inl rfl),
   ⟨by decide, is_time_to_send_malformed_true "not-a-date" 1000 600 (Or.inr (by decide))⟩,
   ⟨by decide,
    is_time_to_send_malformed_true "2024-02-31T12:00:00" 1000 600 (Or.inr (by decide))⟩,
   by decide, by decide, by decide, rfl, rfl⟩

/-! ## `core/reply_engine.py` -/

/-- `leadsWith pat l`: `pat` is an initial segment of `l` (helper for
substring containment). -/
def leadsWith : List Char → List Char → Bool
  | [], _ => true
  | _ :: _, [] => false
  | a :: as, b :: bs => a == b && leadsWith as bs

/-- `occursIn pat l`: `pat` occurs contiguously somewhere in `l`; mirrors
Python's `pat in l` substring test. -/
def occursIn (pat : List Char) : List Char → Bool
  | [] => leadsWith pat []
  | b :: bs => leadsWith pat (b :: bs) || occursIn pat bs

/-- ASCII lowercase of one character (mirrors what `str.lower()` does on
the ASCII subjects and keywords involved here). -/
def charLower (c : Char) : Char :=
  if 65 ≤ c.toNat ∧ c.toNat ≤ 90 then Char.ofNat (c.toNat + 32) else c

/-- Lowercase a character list (`subject.lower()`). -/
def lowerChars (l : List Char) : List Char :=
  l.map charLower

/-- The subject denylist of `ReplyEngine._should_reply`. -/
def DENYLIST : List String :=
  ["unsubscribe", "no-reply", "noreply", "bounce",
   "auto-reply", "out of office", "vacation", "delivery failure"]

/-- `ReplyEngine._should_reply`. `rate_draw` models the outcome of the
probabilistic gate `random.random() < self.reply_rate` — it is quantified
over, so results hold for every configured reply rate and every random
draw. Source: lowercase the subject; if any denylist keyword occurs in it,
return `False`; else return the probabilistic draw. -/
def should_reply (subject : String) (rate_draw : Bool) : Bool :=
  let subj := lowerChars subject.data
  if DENYLIST.any (fun kw => occursIn kw.data subj) then false
  else rate_draw

/-- C6: a fetched message whose subject contains (case-insensitively) any
denylist term is never replied to, for every configured reply rate and
every outcome of the random reply-rate draw. -/
theorem should_reply_denylist_never
    (subject : String) (rate_draw : Bool)
    (h : DENYLIST.any
          (fun kw => occursIn kw.data (lowerChars subject.data)) = true) :
    should_reply subject rate_draw = false := by
  unfold should_reply
  simp only [h]
  rfl

/-- C6 witness: the subject `"RE: please unsubscribe"` hits the denylist
and is never replied to, whichever way the reply-rate draw goes. -/
theorem should_reply_denylist_never_witness :
    (DENYLIST.any
      (fun kw =>
        occursIn kw.data (lowerChars ("RE: please unsubscribe").data)) = true) ∧
    should_reply "RE: please unsubscribe" true = false ∧
    should_reply "RE: please unsubscribe" false = false :=
  ⟨by decide,
   should_reply_denylist_never "RE: please unsubscribe" true (by decide),
   should_reply_denylist_never "RE: please unsubscribe" false (by decide)⟩

/-! ## Data model (`storage/*.py`, `core/smtp_engine.py`) -/

/-- Lexicographic `<` on character lists: Python's string ordering, used by
the log-window cutoff comparison and the recipient tie-break. -/
def charListLt : List Char → List Char → Bool
  | _, [] => false
  | [], _ :: _ => true
  | a :: as, b :: bs =>
    if a.toNat < b.toNat then true
    else if a.toNat = b.toNat then charListLt as bs
    else false

/-- `SendResult` from `core/smtp_engine.py`. -/
structure SendResult where
  success : Bool
  message_id : String := ""
  error_code : Option Int := none
  error_message : String := ""
  duration_ms : Nat := 0
  is_hard_bounce : Bool := false
  is_soft_bounce : Bool := false
  is_auth_failure : Bool := false
deriving Repr, DecidableEq

/-- `InboxRecord` from `storage/inbox_store.py`. The working-hour window
fields hold minutes since midnight (the `'HH:MM'` strings parsed, as
`within_working_hours` does); `"08:00"`/`"18:00"` defaults become
480/1080. -/
structure InboxRecord where
  email : String
  smtp_host : String := "smtp.zoho.in"
  smtp_port : Nat := 587
  imap_host : String := "imap.zoho.in"
  imap_port : Nat := 993
  password : String := ""
  stage : Nat := 1
  daily_sent : Nat := 0
  daily_limit : Nat := 5
  status : String := "active"
  last_sent_at : String := ""
  paused_reason : String := ""
  working_hours_start : Nat := 480
  working_hours_end : Nat := 1080
  display_name : String := ""
deriving Repr, DecidableEq

/-- `RecipientRecord` from `storage/recipient_store.py` (the `active` flag
is stored as a string in the CSV, as in the source). -/
structure RecipientRecord where
  email : String
  name : String := ""
  domain : String := ""
  active : String := "true"
  count_used : Nat := 0
  last_used : String := ""
deriving Repr, DecidableEq

/-- `LogRecord` from `storage/log_store.py`. -/
structure LogRecord where
  timestamp : String
  inbox_email : String
  event_type : String
  recipient : String := ""
  subject : String := ""
  details : String := ""
deriving Repr, DecidableEq

/-- One event posted to the UI queue (`_post_ui`); the wall-clock
timestamp field is omitted (claims only count events by type). -/
structure UiEvent where
  type : String
  inbox : String
  message : String
deriving Repr, DecidableEq

/-- One write against the inbox store (`InboxStore.update`,
`InboxStore.mark_error`, `InboxStore.pause`). -/
inductive StoreOp where
  | update (record : InboxRecord)
  | markError (email reason : String)
  | pauseInbox (email reason : String)
deriving Repr, DecidableEq

/-- `should_send` from `core/ramp_logic.py`, applied to the inbox record
the engine builds its dict from: true iff `daily_sent < daily_limit`. -/
def should_send (inbox : InboxRecord) : Bool :=
  decide (inbox.daily_sent < inbox.daily_limit)

/-! ## `storage/recipient_store.py` as pure list transformations -/

/-- `RecipientRecord.is_active`: `active.lower() == "true"`. -/
def is_active_rec (r : RecipientRecord) : Bool :=
  lowerChars r.active.data == "true".data

/-- `RecipientStore.record_use`: increment `count_used` and set
`last_used` on the first row matching the email (the source breaks out of
its loop after the first match). -/
def record_use : List RecipientRecord → String → String → List RecipientRecord
  | [], _, _ => []
  | r :: rs, email, now =>
    if r.email == email then
      { r with count_used := r.count_used + 1, last_used := now } :: rs
    else r :: record_use rs email now

/-- `RecipientStore.deactivate`: set `active = "false"` on the first row
matching the email. -/
def deactivate : List RecipientRecord → String → List RecipientRecord
  | [], _ => []
  | r :: rs, email =>
    if r.email == email then { r with active := "false" } :: rs
    else r :: deactivate rs email

/-- First recipient row with the given email (CSV rows are scanned in
order). -/
def find_rec (rows : List RecipientRecord) (email : String) : Option RecipientRecord :=
  rows.find? (fun r => r.email == email)

/-- The strict part of the `(count_used, last_used)` ascending sort key of
`get_least_used`. -/
def recKeyLt (a b : RecipientRecord) : Bool :=
  a.count_used < b.count_used ||
    (a.count_used == b.count_used && charListLt a.last_used.data b.last_used.data)

/-- Leftmost row with the minimal `(count_used, last_used)` key: the head
of the stable ascending sort the source takes `[0]` of. -/
def least_by (rows : List RecipientRecord) : Option RecipientRecord :=
  rows.foldl
    (fun acc r =>
      match acc with
      | none => some r
      | some b => if recKeyLt r b then some r else some b)
    none

/-- `RecipientStore.get_least_used`: active rows excluding the sender's
own address; if exclusion empties the pool, fall back to all active rows;
pick the least-used (ties broken by ascending `last_used`). -/
def get_least_used (rows : List RecipientRecord) (exclude_email : String) :
    Option RecipientRecord :=
  let pool := (rows.filter is_active_rec).filter (fun r => r.email != exclude_email)
  let pool := if pool.isEmpty then rows.filter is_active_rec else pool
  least_by pool

/-! ## `storage/log_store.py` window counts -/

/-- `LogStore.count_bounces_last_hours`: BOUNCE rows for this inbox whose
timestamp is at or after the cutoff. `cutoff` models
`(datetime.now() - timedelta(hours=24)).isoformat()`; `ts >= cutoff` is
the source's lexicographic string comparison. -/
def count_bounces_last_hours (log : List LogRecord) (inbox_email cutoff : String) : Nat :=
  (log.filter (fun r =>
    r.inbox_email == inbox_email && r.event_type == "BOUNCE" &&
      !(charListLt r.timestamp.data cutoff.data))).length

/-- `LogStore.count_sends_last_hours`: SEND rows for this inbox whose
timestamp is at or after the cutoff. -/
def count_sends_last_hours (log : List LogRecord) (inbox_email cutoff : String) : Nat :=
  (log.filter (fun r =>
    r.inbox_email == inbox_email && r.event_type == "SEND" &&
      !(charListLt r.timestamp.data cutoff.data))).length

/-- Number of log rows of a given event type. -/
def countKind (rows : List LogRecord) (kind : String) : Nat :=
  (rows.filter (fun r => r.event_type == kind)).length

/-- Number of UI events of a given type. -/
def countEvent (events : List UiEvent) (kind : String) : Nat :=
  (events.filter (fun e => e.type == kind)).length

/-! ## `core/warmup_engine.py` -/

/-- Result of `WarmupEngine._handle_success`: the single inbox record
persisted through `InboxStore.update`, plus the log rows and UI events
produced, in order. -/
structure SuccessOutcome where
  updated : InboxRecord
  logRows : List LogRecord
  events : List UiEvent
deriving Repr, DecidableEq

/-- `WarmupEngine._handle_success`. `now_ts` models
`datetime.now().isoformat(timespec="seconds")`. Source: `new_sent =
daily_sent + 1`; if `new_sent >= daily_limit and stage < 4`, promote to
`next_stage` (one STAGE log row, one `stage_advance` event); build the
updated record (limit recomputed from the new stage, `last_sent_at = now`,
`paused_reason = ""`, `display_name` falling back to the dataclass default
`""`), persist it as one `update`, then log SEND and post a `send`
event. -/
def handle_success (inbox : InboxRecord) (to_email subject now_ts : String) :
    SuccessOutcome :=
  let new_sent := inbox.daily_sent + 1
  let promote := decide (new_sent ≥ inbox.daily_limit ∧ inbox.stage < 4)
  let new_stage := if promote then next_stage inbox.stage else inbox.stage
  let stageRows : List LogRecord :=
    if promote then
      [{ timestamp := now_ts, inbox_email := inbox.email, event_type := "STAGE",
         details := "Stage " ++ toString inbox.stage ++ " -> " ++ toString new_stage }]
    else []
  let stageEvents : List UiEvent :=
    if promote then
      [{ type := "stage_advance", inbox := inbox.email,
         message := "Promoted to Stage " ++ toString new_stage ++
           "! Daily limit now " ++ toString (get_daily_limit new_stage) }]
    else []
  let updated : InboxRecord :=
    { email := inbox.email
      smtp_host := inbox.smtp_host
      smtp_port := inbox.smtp_port
      imap_host := inbox.imap_host
      imap_port := inbox.imap_port
      password := inbox.password
      stage := new_stage
      daily_sent := new_sent
      daily_limit := get_daily_limit new_stage
      status := inbox.status
      last_sent_at := now_ts
      paused_reason := ""
      working_hours_start := inbox.working_hours_start
      working_hours_end := inbox.working_hours_end
      display_name := "" }
  { updated := updated
    logRows := stageRows ++
      [{ timestamp := now_ts, inbox_email := inbox.email, event_type := "SEND",
         recipient := to_email, subject := subject, details := "OK" }]
    events := stageEvents ++
      [{ type := "send", inbox := inbox.email,
         message := "Sent to " ++ to_email ++ " | " ++ subject.take 40 }] }

/-- Result of `WarmupEngine._handle_failure`: log rows, the recipient rows
after any deactivation, inbox-store writes, and UI events. -/
structure FailureOutcome where
  logRows : List LogRecord
  recipients : List RecipientRecord
  storeOps : List StoreOp
  events : List UiEvent
deriving Repr, DecidableEq

/-- The `result.error_message or "Unknown SMTP error"` fallback at the top
of `_handle_failure` (an empty message is falsy in Python). -/
def error_detail_of (result : SendResult) : String :=
  if result.error_message == "" then "Unknown SMTP error" else result.error_message

/-- The BOUNCE row `WarmupLogger.bounce` appends on a hard bounce. -/
def bounce_row (inbox : InboxRecord) (to_email now_ts : String) (result : SendResult) :
    LogRecord :=
  { timestamp := now_ts, inbox_email := inbox.email, event_type := "BOUNCE",
    recipient := to_email, details := error_detail_of result }

/-- `WarmupEngine._handle_failure`. `log` is the activity log before this
failure; `cutoff` models `(now - timedelta(hours=24)).isoformat()` and
`now_ts` the current timestamp. The password redaction applied to ERROR
details by the logger is not modelled (no claim depends on the detail
text). Source order: auth failure → ERROR + `mark_error`; hard bounce →
BOUNCE row, deactivate the recipient, recount the 24-hour window (the
fresh BOUNCE row is already in the store when it is recounted), pause iff
`check_bounce_threshold`; soft bounce → ERROR; otherwise generic ERROR. -/
def handle_failure (inbox : InboxRecord) (to_email : String) (result : SendResult)
    (recipients : List RecipientRecord) (log : List LogRecord)
    (threshold : ℚ) (cutoff now_ts : String) : FailureOutcome :=
  let error_detail := error_detail_of result
  if result.is_auth_failure then
    { logRows := [{ timestamp := now_ts, inbox_email := inbox.email,
                    event_type := "ERROR", details := "Auth failure: " ++ error_detail }]
      recipients := recipients
      storeOps := [.markError inbox.email "Authentication failed"]
      events := [{ type := "error", inbox := inbox.email,
                   message := "Authentication failed — check credentials" }] }
  else if result.is_hard_bounce then
    let bounceRow := bounce_row inbox to_email now_ts result
    let log1 := log ++ [bounceRow]
    let recs1 := deactivate recipients to_email
    let bounces := count_bounces_last_hours log1 inbox.email cutoff
    let sends := count_sends_last_hours log1 inbox.email cutoff
    if check_bounce_threshold sends bounces threshold then
      { logRows := [bounceRow,
          { timestamp := now_ts, inbox_email := inbox.email, event_type := "PAUSE",
            details := "Bounce rate too high" }]
        recipients := recs1
        storeOps := [.pauseInbox inbox.email "Auto-paused: bounce rate exceeded threshold"]
        events := [{ type := "pause", inbox := inbox.email,
                     message := "Auto-paused: bounce rate exceeded 5%" }] }
    else
      { logRows := [bounceRow]
        recipients := recs1
        storeOps := []
        events := [{ type := "bounce", inbox := inbox.email,
                     message := "Hard bounce from " ++ to_email }] }
  else if result.is_soft_bounce then
    { logRows := [{ timestamp := now_ts, inbox_email := inbox.email,
                    event_type := "ERROR", details := "Soft bounce: " ++ error_detail }]
      recipients := recipients
      storeOps := []
      events := [{ type := "error", inbox := inbox.email,
                   message := "Soft bounce: " ++ error_detail.take 60 }] }
  else
    { logRows := [{ timestamp := now_ts, inbox_email := inbox.email,
                    event_type := "ERROR", details := error_detail }]
      recipients := recipients
      storeOps := []
      events := [{ type := "error", inbox := inbox.email,
                   message := error_detail.take 80 }] }

/-- Result of one `WarmupEngine._process_inbox` pass: whether the
transport `send` was invoked, which recipient was chosen, the recipient
rows afterwards, the inbox-store writes, log rows and UI events. -/
structure CycleOutcome where
  sendAttempted : Bool
  chosen : Option String
  recipients : List RecipientRecord
  storeOps : List StoreOp
  logRows : List LogRecord
  events : List UiEvent
deriving Repr, DecidableEq

/-- The outcome of a pass that short-circuits at a gate: no transport
call, no store write, no log row, no event. -/
def no_action (recipients : List RecipientRecord) : CycleOutcome :=
  { sendAttempted := false, chosen := none, recipients := recipients,
    storeOps := [], logRows := [], events := [] }

/-- `WarmupEngine._process_inbox`. Oracle arguments: `now_minutes` is the
current time of day (the working-hours gate); `interval_ok` is the outcome
of the randomized `is_time_to_send` gate; `result` is what the SMTP
transport returns; `subject` is what the content generator produced;
`log`, `threshold`, `cutoff`, `now_ts` feed failure handling. Gate order
as in the source: working hours, then daily quota (`should_send`), then
send interval, then recipient availability; on an attempt the chosen
recipient's usage is recorded regardless of outcome, then success/failure
handling runs. -/
def process_inbox (inbox : InboxRecord) (now_minutes : Nat) (interval_ok : Bool)
    (recipients : List RecipientRecord) (result : SendResult) (subject : String)
    (log : List LogRecord) (threshold : ℚ) (cutoff now_ts : String) : CycleOutcome :=
  if !(within_working_hours inbox.working_hours_start inbox.working_hours_end now_minutes) then
    no_action recipients
  else if !(should_send inbox) then
    no_action recipients
  else if !interval_ok then
    no_action recipients
  else
    match get_least_used recipients inbox.email with
    | none =>
      { no_action recipients with
        events := [{ type := "warning", inbox := inbox.email,
                     message := "No recipients configured" }] }
    | some recipient =>
      let recs1 := record_use recipients recipient.email now_ts
      if result.success then
        let hs := handle_success inbox recipient.email subject now_ts
        { sendAttempted := true, chosen := some recipient.email, recipients := recs1,
          storeOps := [.update hs.updated], logRows := hs.logRows, events := hs.events }
      else
        let hf := handle_failure inbox recipient.email result recs1 log threshold cutoff now_ts
        { sendAttempted := true, chosen := some recipient.email, recipients := hf.recipients,
          storeOps := hf.storeOps, logRows := hf.logRows, events := hf.events }

/-! ## Claim theorems: warm-up cycle -/

/-- Characterization of `check_bounce_threshold` used by several proofs. -/
lemma check_bounce_threshold_iff (sent bounced : Nat) (threshold : ℚ) :
    check_bounce_threshold sent bounced threshold = true ↔
      (sent ≠ 0 ∧ (bounced : ℚ) / (sent : ℚ) > threshold) := by
  unfold check_bounce_threshold
  split <;> simp_all

/-- C2: an inbox whose `daily_sent` has reached its `daily_limit` fails
the quota gate, and a `_process_inbox` pass over it performs no transport
call, no store write, no log row and no event, whatever the other gates,
the recipient pool and the transport would have done. -/
theorem quota_gate_blocks_send
    (inbox : InboxRecord) (now_minutes : Nat) (interval_ok : Bool)
    (recipients : List RecipientRecord) (result : SendResult) (subject : String)
    (log : List LogRecord) (threshold : ℚ) (cutoff now_ts : String)
    (h : inbox.daily_limit ≤ inbox.daily_sent) :
    should_send inbox = false ∧
      process_inbox inbox now_minutes interval_ok recipients result subject
        log threshold cutoff now_ts = no_action recipients := by
  have hss : should_send inbox = false := by
    unfold should_send
    simp
    omega
  refine ⟨hss, ?_⟩
  unfold process_inbox
  cases hwh : within_working_hours inbox.working_hours_start inbox.working_hours_end
      now_minutes
  · simp [hwh]
  · simp [hwh, hss]

/-- C2 witness: a stage-1 inbox with `daily_sent = daily_limit = 5` is
blocked even with the working-hours and interval gates open, an available
recipient and a transport that would succeed. -/
theorem quota_gate_blocks_send_witness :
    (({ email := "a@x.com", daily_sent := 5, daily_limit := 5 } : InboxRecord).daily_limit ≤
      ({ email := "a@x.com", daily_sent := 5, daily_limit := 5 } : InboxRecord).daily_sent) ∧
    should_send { email := "a@x.com", daily_sent := 5, daily_limit := 5 } = false ∧
      process_inbox { email := "a@x.com", daily_sent := 5, daily_limit := 5 } 600 true
        [{ email := "r@y.com" }] { success := true } "Hello" [] (5/100)
        "2024-01-01T12:00:00" "2024-01-02T12:00:00"
      = no_action [{ email := "r@y.com" }] :=
  ⟨by decide,
   quota_gate_blocks_send { email := "a@x.com", daily_sent := 5, daily_limit := 5 }
     600 true [{ email := "r@y.com" }] { success := true } "Hello" [] (5/100)
     "2024-01-01T12:00:00" "2024-01-02T12:00:00" (by decide)⟩

/-- C3: a successful send increments `daily_sent`; if that reaches the
daily limit while the stage is below 4, the persisted record carries
`next_stage` and the limit recomputed from the new stage in the same
write, and exactly one STAGE log row and one `stage_advance` event are
produced; otherwise the stage and (stage-derived) limit are unchanged and
no STAGE row or `stage_advance` event is produced. -/
theorem success_promotes_at_limit
    (inbox : InboxRecord) (to_email subject now_ts : String) :
    (handle_success inbox to_email subject now_ts).updated.daily_sent
        = inbox.daily_sent + 1 ∧
    (inbox.daily_sent + 1 ≥ inbox.daily_limit ∧ inbox.stage < 4 →
      (handle_success inbox to_email subject now_ts).updated.stage
          = next_stage inbox.stage ∧
      (handle_success inbox to_email subject now_ts).updated.daily_limit
          = get_daily_limit (next_stage inbox.stage) ∧
      countKind (handle_success inbox to_email subject now_ts).logRows "STAGE" = 1 ∧
      countEvent (handle_success inbox to_email subject now_ts).events "stage_advance" = 1) ∧
    (¬ (inbox.daily_sent + 1 ≥ inbox.daily_limit ∧ inbox.stage < 4) →
      (handle_success inbox to_email subject now_ts).updated.stage = inbox.stage ∧
      (handle_success inbox to_email subject now_ts).updated.daily_limit
          = get_daily_limit inbox.stage ∧
      countKind (handle_success inbox to_email subject now_ts).logRows "STAGE" = 0 ∧
      countEvent (handle_success inbox to_email subject now_ts).events "stage_advance" = 0) := by
  refine ⟨rfl, fun hp => ?_, fun hp => ?_⟩
  · unfold handle_success
    simp [hp, countKind, countEvent]
  · unfold handle_success
    simp [hp, countKind, countEvent]

/-- C3 witness: a stage-1 inbox at 4 of 5 sends is promoted to stage 2
with limit 15 by the fifth success, producing one STAGE row and one
`stage_advance` event. -/
theorem success_promotes_at_limit_witness :
    (({ email := "a@x.com", stage := 1, daily_sent := 4, daily_limit := 5 } : InboxRecord).daily_sent + 1 ≥
        ({ email := "a@x.com", stage := 1, daily_sent := 4, daily_limit := 5 } : InboxRecord).daily_limit ∧
      ({ email := "a@x.com", stage := 1, daily_sent := 4, daily_limit := 5 } : InboxRecord).stage < 4) ∧
    ((handle_success { email := "a@x.com", stage := 1, daily_sent := 4, daily_limit := 5 }
        "r@y.com" "Hi" "2024-01-01T12:00:00").updated.stage
      = next_stage ({ email := "a@x.com", stage := 1, daily_sent := 4, daily_limit := 5 } : InboxRecord).stage ∧
    (handle_success { email := "a@x.com", stage := 1, daily_sent := 4, daily_limit := 5 }
        "r@y.com" "Hi" "2024-01-01T12:00:00").updated.daily_limit
      = get_daily_limit (next_stage ({ email := "a@x.com", stage := 1, daily_sent := 4, daily_limit := 5 } : InboxRecord).stage) ∧
    countKind (handle_success { email := "a@x.com", stage := 1, daily_sent := 4, daily_limit := 5 }
        "r@y.com" "Hi" "2024-01-01T12:00:00").logRows "STAGE" = 1 ∧
    countEvent (handle_success { email := "a@x.com", stage := 1, daily_sent := 4, daily_limit := 5 }
        "r@y.com" "Hi" "2024-01-01T12:00:00").events "stage_advance" = 1) :=
  ⟨by decide,
   (success_promotes_at_limit { email := "a@x.com", stage := 1, daily_sent := 4, daily_limit := 5 }
     "r@y.com" "Hi" "2024-01-01T12:00:00").2.1 (by decide)⟩

/-- C9: every successful send persists the inbox with `paused_reason` set
to the empty string — unconditionally erasing any stored reason — while
the `status` field is carried over unchanged. -/
theorem success_clears_paused_reason
    (inbox : InboxRecord) (to_email subject now_ts : String) :
    (handle_success inbox to_email subject now_ts).updated.paused_reason = "" ∧
    (handle_success inbox to_email subject now_ts).updated.status = inbox.status :=
  ⟨rfl, rfl⟩

/-- `record_use` bumps the usage fields of exactly the first row matching
the email, as seen through a first-match lookup. -/
lemma find_rec_record_use (rows : List RecipientRecord) (email now : String) :
    find_rec (record_use rows email now) email =
      (find_rec rows email).map
        (fun r => { r with count_used := r.count_used + 1, last_used := now }) := by
  induction rows with
  | nil => rfl
  | cons r rs ih =>
    by_cases hr : (r.email == email) = true
    · simp [record_use, find_rec, List.find?, hr]
    · simp only [record_use, find_rec, List.find?, hr, if_neg]
      simp only [Bool.not_eq_true] at hr
      simp [find_rec, List.find?, hr] at ih ⊢
      exact ih

/-- `deactivate` changes only the `active` flag of the first row matching
the email. -/
lemma find_rec_deactivate (rows : List RecipientRecord) (email : String) :
    find_rec (deactivate rows email) email =
      (find_rec rows email).map (fun r => { r with active := "false" }) := by
  induction rows with
  | nil => rfl
  | cons r rs ih =>
    by_cases hr : (r.email == email) = true
    · simp [deactivate, find_rec, List.find?, hr]
    · simp only [Bool.not_eq_true] at hr
      simp [deactivate, find_rec, List.find?, hr] at ih ⊢
      exact ih

/-- `_handle_failure` either leaves the recipient rows alone or (on a hard
bounce) deactivates the bounced address, and nothing else. -/
lemma handle_failure_recipients_eq
    (inbox : InboxRecord) (to_email : String) (result : SendResult)
    (recs : List RecipientRecord) (log : List LogRecord)
    (threshold : ℚ) (cutoff now_ts : String) :
    (handle_failure inbox to_email result recs log threshold cutoff now_ts).recipients
        = recs ∨
    (handle_failure inbox to_email result recs log threshold cutoff now_ts).recipients
        = deactivate recs to_email := by
  unfold handle_failure
  split_ifs <;> try simp
  all_goals (split <;> simp)

/-- C7: once `_process_inbox` has chosen a recipient and attempted
delivery, that recipient's `count_used` is incremented and its `last_used`
stamp updated, whatever the transport result (success, hard bounce, soft
bounce, auth failure or any other error). -/
theorem attempt_updates_recipient_usage
    (inbox : InboxRecord) (now_minutes : Nat) (interval_ok : Bool)
    (recipients : List RecipientRecord) (result : SendResult) (subject : String)
    (log : List LogRecord) (threshold : ℚ) (cutoff now_ts : String) (e : String)
    (h : (process_inbox inbox now_minutes interval_ok recipients result subject
            log threshold cutoff now_ts).chosen = some e) :
    (process_inbox inbox now_minutes interval_ok recipients result subject
        log threshold cutoff now_ts).sendAttempted = true ∧
    (find_rec (process_inbox inbox now_minutes interval_ok recipients result subject
        log threshold cutoff now_ts).recipients e).map RecipientRecord.count_used
      = (find_rec recipients e).map (fun r => r.count_used + 1) ∧
    (find_rec (process_inbox inbox now_minutes interval_ok recipients result subject
        log threshold cutoff now_ts).recipients e).map RecipientRecord.last_used
      = (find_rec recipients e).map (fun _ => now_ts) := by
  unfold process_inbox at h ⊢
  by_cases hwh : (!(within_working_hours inbox.working_hours_start
      inbox.working_hours_end now_minutes)) = true
  · rw [if_pos hwh] at h
    simp [no_action] at h
  · rw [if_neg hwh] at h ⊢
    by_cases hq : (!(should_send inbox)) = true
    · rw [if_pos hq] at h
      simp [no_action] at h
    · rw [if_neg hq] at h ⊢
      by_cases hi : (!interval_ok) = true
      · rw [if_pos hi] at h
        simp [no_action] at h
      · rw [if_neg hi] at h ⊢
        cases heq : get_least_used recipients inbox.email with
        | none =>
          rw [heq] at h
          simp [no_action] at h
        | some recipient =>
          rw [heq] at h
          dsimp only at h ⊢
          by_cases hs : result.success = true
          · rw [if_pos hs] at h ⊢
            simp only [Option.some.injEq] at h
            subst h
            refine ⟨rfl, ?_, ?_⟩ <;>
              simp [find_rec_record_use, Option.map_map, Function.comp_def]
          · rw [if_neg hs] at h ⊢
            simp only [Option.some.injEq] at h
            subst h
            rcases handle_failure_recipients_eq inbox recipient.email result
                (record_use recipients recipient.email now_ts) log threshold cutoff now_ts
              with hr | hr <;>
              refine ⟨rfl, ?_, ?_⟩ <;>
                simp [hr, find_rec_deactivate, find_rec_record_use,
                  Option.map_map, Function.comp_def]

/-- C7 witness: a hard-bounce attempt against the single recipient
`r@y.com` still increments its usage count and stamps its `last_used`. -/
theorem attempt_updates_recipient_usage_witness :
    (process_inbox { email := "a@x.com" } 600 true [{ email := "r@y.com" }]
        { success := false, is_hard_bounce := true, error_message := "550 user unknown" }
        "Hi" [] (5/100) "2024-01-01T12:00:00" "2024-01-02T12:00:00").chosen
      = some "r@y.com" ∧
    ((process_inbox { email := "a@x.com" } 600 true [{ email := "r@y.com" }]
        { success := false, is_hard_bounce := true, error_message := "550 user unknown" }
        "Hi" [] (5/100) "2024-01-01T12:00:00" "2024-01-02T12:00:00").sendAttempted = true ∧
    (find_rec (process_inbox { email := "a@x.com" } 600 true [{ email := "r@y.com" }]
        { success := false, is_hard_bounce := true, error_message := "550 user unknown" }
        "Hi" [] (5/100) "2024-01-01T12:00:00" "2024-01-02T12:00:00").recipients
        "r@y.com").map RecipientRecord.count_used
      = (find_rec [{ email := "r@y.com" }] "r@y.com").map (fun r => r.count_used + 1) ∧
    (find_rec (process_inbox { email := "a@x.com" } 600 true [{ email := "r@y.com" }]
        { success := false, is_hard_bounce := true, error_message := "550 user unknown" }
        "Hi" [] (5/100) "2024-01-01T12:00:00" "2024-01-02T12:00:00").recipients
        "r@y.com").map RecipientRecord.last_used
      = (find_rec [{ email := "r@y.com" }] "r@y.com").map
          (fun _ => "2024-01-02T12:00:00")) :=
  ⟨by decide,
   attempt_updates_recipient_usage { email := "a@x.com" } 600 true [{ email := "r@y.com" }]
     { success := false, is_hard_bounce := true, error_message := "550 user unknown" }
     "Hi" [] (5/100) "2024-01-01T12:00:00" "2024-01-02T12:00:00" "r@y.com" (by decide)⟩

/-- C4: on a hard bounce (that is not an auth failure), `_handle_failure`
logs exactly one BOUNCE row, deactivates the bounced recipient, recounts
the trailing 24-hour window over the activity log (which already contains
the fresh BOUNCE row), and pauses the inbox — one PAUSE store write, one
PAUSE log row, one `pause` event — exactly when the window's bounce count
divided by its send count strictly exceeds the threshold; otherwise it
performs no inbox-store write and emits only a `bounce` event. -/
theorem hard_bounce_handling
    (inbox : InboxRecord) (to_email : String) (result : SendResult)
    (recs : List RecipientRecord) (log : List LogRecord)
    (threshold : ℚ) (cutoff now_ts : String)
    (hauth : result.is_auth_failure = false)
    (hhard : result.is_hard_bounce = true) :
    countKind (handle_failure inbox to_email result recs log threshold cutoff
        now_ts).logRows "BOUNCE" = 1 ∧
    (handle_failure inbox to_email result recs log threshold cutoff now_ts).recipients
        = deactivate recs to_email ∧
    ((count_sends_last_hours (log ++ [bounce_row inbox to_email now_ts result])
          inbox.email cutoff ≠ 0 ∧
      (count_bounces_last_hours (log ++ [bounce_row inbox to_email now_ts result])
          inbox.email cutoff : ℚ) /
        (count_sends_last_hours (log ++ [bounce_row inbox to_email now_ts result])
          inbox.email cutoff : ℚ) > threshold →
      (handle_failure inbox to_email result recs log threshold cutoff now_ts).storeOps
          = [StoreOp.pauseInbox inbox.email "Auto-paused: bounce rate exceeded threshold"] ∧
      countKind (handle_failure inbox to_email result recs log threshold cutoff
          now_ts).logRows "PAUSE" = 1 ∧
      countEvent (handle_failure inbox to_email result recs log threshold cutoff
          now_ts).events "pause" = 1 ∧
      countEvent (handle_failure inbox to_email result recs log threshold cutoff
          now_ts).events "bounce" = 0)) ∧
    (¬ (count_sends_last_hours (log ++ [bounce_row inbox to_email now_ts result])
          inbox.email cutoff ≠ 0 ∧
      (count_bounces_last_hours (log ++ [bounce_row inbox to_email now_ts result])
          inbox.email cutoff : ℚ) /
        (count_sends_last_hours (log ++ [bounce_row inbox to_email now_ts result])
          inbox.email cutoff : ℚ) > threshold) →
      (handle_failure inbox to_email result recs log threshold cutoff now_ts).storeOps
          = [] ∧
      countKind (handle_failure inbox to_email result recs log threshold cutoff
          now_ts).logRows "PAUSE" = 0 ∧
      countEvent (handle_failure inbox to_email result recs log threshold cutoff
          now_ts).events "bounce" = 1 ∧
      countEvent (handle_failure inbox to_email result recs log threshold cutoff
          now_ts).events "pause" = 0) := by
  have hc := check_bounce_threshold_iff
    (count_sends_last_hours (log ++ [bounce_row inbox to_email now_ts result])
      inbox.email cutoff)
    (count_bounces_last_hours (log ++ [bounce_row inbox to_email now_ts result])
      inbox.email cutoff) threshold
  unfold handle_failure
  rw [if_neg (by simp [hauth]), if_pos hhard]
  dsimp only
  by_cases hcheck : check_bounce_threshold
      (count_sends_last_hours (log ++ [bounce_row inbox to_email now_ts result])
        inbox.email cutoff)
      (count_bounces_last_hours (log ++ [bounce_row inbox to_email now_ts result])
        inbox.email cutoff) threshold = true
  · rw [if_pos hcheck]
    refine ⟨by simp [countKind, bounce_row], rfl,
      fun _ => ⟨rfl, by simp [countKind, bounce_row], by simp [countEvent],
        by simp [countEvent]⟩,
      fun hnp => absurd (hc.mp hcheck) hnp⟩
  · rw [if_neg hcheck]
    refine ⟨by simp [countKind, bounce_row], rfl,
      fun hp => absurd (hc.mpr hp) hcheck,
      fun _ => ⟨rfl, by simp [countKind, bounce_row], by simp [countEvent],
        by simp [countEvent]⟩⟩

/-! ## `scheduler.py` -/

/-- The three states of the underlying APScheduler `BaseScheduler`
(`STATE_STOPPED`, `STATE_RUNNING`, `STATE_PAUSED`). The scheduler starts
and ends up `stopped`; `shutdown()` returns it to `stopped`, from which
`start()` is again legal — the source itself relies on these semantics
(its comment notes that `start()` on a non-stopped scheduler raises
`SchedulerAlreadyRunningError`, hence its `resume()` path for the paused
state). -/
inductive SchedulerState where
  | stopped
  | running
  | paused
deriving Repr, DecidableEq

/-- APScheduler `BaseScheduler.start`: raises unless the state is
`STATE_STOPPED`. -/
def as_start : SchedulerState → Except Unit SchedulerState
  | .stopped => .ok .running
  | _ => .error ()

/-- APScheduler `BaseScheduler.pause`: raises when stopped, otherwise the
state becomes `STATE_PAUSED`. -/
def as_pause : SchedulerState → Except Unit SchedulerState
  | .stopped => .error ()
  | _ => .ok .paused

/-- APScheduler `BaseScheduler.resume`: raises when stopped, otherwise the
state becomes `STATE_RUNNING`. -/
def as_resume : SchedulerState → Except Unit SchedulerState
  | .stopped => .error ()
  | _ => .ok .running

/-- APScheduler `BaseScheduler.shutdown`: raises when already stopped,
otherwise the state becomes `STATE_STOPPED`. -/
def as_shutdown : SchedulerState → Except Unit SchedulerState
  | .stopped => .error ()
  | _ => .ok .stopped

/-- The `WarmupScheduler` wrapper state: its `_running` flag, the
underlying APScheduler state, and whether the three jobs have been
registered (`add_job` with `replace_existing=True`). -/
structure WarmupScheduler where
  running : Bool
  sched : SchedulerState
  jobsRegistered : Bool
deriving Repr, DecidableEq

/-- The state after `__init__`: `_running = False`, a freshly built (not
yet started) background scheduler, no jobs registered yet. -/
def WarmupScheduler.initial : WarmupScheduler :=
  { running := false, sched := .stopped, jobsRegistered := false }

/-- `WarmupScheduler.start`: early-return when `_running`; otherwise
register the jobs, then `resume()` if the underlying scheduler is paused
(Stop → Start), else `start()` it; on success set `_running = True`. An
exception from the underlying call propagates (there is no try/except
around this path in the source). -/
def WarmupScheduler.start (s : WarmupScheduler) : Except Unit WarmupScheduler :=
  if s.running then .ok s
  else
    let s := { s with jobsRegistered := true }
    if s.sched = .paused then
      match as_resume s.sched with
      | .ok st => .ok { s with sched := st, running := true }
      | .error e => .error e
    else
      match as_start s.sched with
      | .ok st => .ok { s with sched := st, running := true }
      | .error e => .error e

/-- `WarmupScheduler.stop`: early-return when not `_running`; otherwise
`pause()` the underlying scheduler (the schedule is kept) and clear
`_running`. -/
def WarmupScheduler.stop (s : WarmupScheduler) : Except Unit WarmupScheduler :=
  if !s.running then .ok s
  else
    match as_pause s.sched with
    | .ok st => .ok { s with sched := st, running := false }
    | .error e => .error e

/-- `WarmupScheduler.shutdown`: `shutdown()` the underlying scheduler
inside `try/except: pass`, then clear `_running`. Total: a raising
shutdown (already stopped) is swallowed. -/
def WarmupScheduler.shutdown (s : WarmupScheduler) : WarmupScheduler :=
  let st :=
    match as_shutdown s.sched with
    | .ok st => st
    | .error _ => s.sched
  { s with sched := st, running := false }

/-- The wrapper states reachable from construction through the public
lifecycle calls. -/
inductive Reachable : WarmupScheduler → Prop where
  | init : Reachable WarmupScheduler.initial
  | start {s s' : WarmupScheduler} :
      Reachable s → s.start = .ok s' → Reachable s'
  | stop {s s' : WarmupScheduler} :
      Reachable s → s.stop = .ok s' → Reachable s'
  | shutdown {s : WarmupScheduler} : Reachable s → Reachable s.shutdown

/-- A successful `start` either early-returns on a running wrapper or
yields the fully started wrapper state. -/
lemma start_ok_cases {s s' : WarmupScheduler} (h : s.start = .ok s') :
    (s.running = true ∧ s' = s) ∨
      s' = { running := true, sched := .running, jobsRegistered := true } := by
  by_cases hr : s.running = true
  · left
    refine ⟨hr, ?_⟩
    unfold WarmupScheduler.start at h
    rw [if_pos hr] at h
    exact (Except.ok.injEq _ _ ▸ h).symm
  · right
    simp only [Bool.not_eq_true] at hr
    cases hs : s.sched <;>
      simp [WarmupScheduler.start, as_start, as_resume, hr, hs] at h <;>
      simp [← h]

/-- A successful `stop` either early-returns on a non-running wrapper or
pauses the underlying scheduler. -/
lemma stop_ok_cases {s s' : WarmupScheduler} (h : s.stop = .ok s') :
    (s.running = false ∧ s' = s) ∨
      s' = { s with sched := .paused, running := false } := by
  by_cases hr : s.running = true
  · right
    cases hs : s.sched <;>
      simp [WarmupScheduler.stop, as_pause, hr, hs] at h <;>
      simp [← h, hs]
  · left
    simp only [Bool.not_eq_true] at hr
    refine ⟨hr, ?_⟩
    unfold WarmupScheduler.stop at h
    rw [if_pos (by simp [hr])] at h
    exact (Except.ok.injEq _ _ ▸ h).symm

/-- Invariant of reachable wrapper states: when the `_running` flag is
set, the underlying scheduler really is in `STATE_RUNNING`. -/
lemma reachable_running_sched {s : WarmupScheduler} (h : Reachable s) :
    s.running = true → s.sched = .running := by
  induction h with
  | init => simp [WarmupScheduler.initial]
  | start _ hstep ih =>
    rcases start_ok_cases hstep with ⟨hr, rfl⟩ | rfl
    · exact ih
    · intro
      rfl
  | stop _ hstep ih =>
    rcases stop_ok_cases hstep with ⟨_, rfl⟩ | rfl
    · exact ih
    · intro hc
      simp at hc
  | shutdown _ _ =>
    intro hc
    simp [WarmupScheduler.shutdown] at hc

/-! ## Claim theorems: scheduler lifecycle -/

/-- C8 (counterexample): `shutdown()` is not terminal. From the freshly
started wrapper, `shutdown()` leaves the underlying scheduler in
`STATE_STOPPED`, and a subsequent `start()` succeeds and returns the
wrapper to Running (`_running = True`, scheduler `STATE_RUNNING`),
contradicting the claim that after `shutdown()` a `start()` can never
return the scheduler to Running. -/
theorem scheduler_shutdown_not_terminal :
    WarmupScheduler.initial.start
        = Except.ok { running := true, sched := .running, jobsRegistered := true } ∧
    WarmupScheduler.shutdown { running := true, sched := .running, jobsRegistered := true }
        = { running := false, sched := .stopped, jobsRegistered := true } ∧
    (WarmupScheduler.shutdown
        { running := true, sched := .running, jobsRegistered := true }).start
        = Except.ok { running := true, sched := .running, jobsRegistered := true } :=
  ⟨rfl, rfl, rfl⟩

/-- C8 (amended): `start()` twice in a row is idempotent; `stop()` when
already stopped is a no-op; from any reachable running state, `stop()`
succeeds (pausing, not discarding, the schedule) and a following
`start()` resumes to Running; and after `shutdown()` a subsequent
`start()` also succeeds and returns the scheduler to Running — shutdown
suppresses firing but is not terminal in this implementation. -/
theorem scheduler_lifecycle :
    (∀ s s' : WarmupScheduler, s.start = Except.ok s' → s'.start = Except.ok s') ∧
    (∀ s : WarmupScheduler, s.running = false → s.stop = Except.ok s) ∧
    (∀ s : WarmupScheduler, Reachable s → s.running = true →
      ∃ s₂, s.stop = Except.ok s₂ ∧ s₂.running = false ∧
        s₂.jobsRegistered = s.jobsRegistered ∧
        s₂.start = Except.ok { running := true, sched := .running, jobsRegistered := true }) ∧
    (∀ s : WarmupScheduler, (s.shutdown).start
        = Except.ok { running := true, sched := .running, jobsRegistered := true }) := by
  refine ⟨?_, ?_, ?_, ?_⟩
  · intro s s' h
    rcases start_ok_cases h with ⟨hr, rfl⟩ | rfl
    · unfold WarmupScheduler.start
      rw [if_pos hr]
    · rfl
  · intro s h
    unfold WarmupScheduler.stop
    rw [if_pos (by simp [h])]
  · intro s hs hr
    have hsched := reachable_running_sched hs hr
    refine ⟨{ s with sched := .paused, running := false }, ?_, rfl, rfl, rfl⟩
    unfold WarmupScheduler.stop
    rw [if_neg (by simp [hr])]
    rw [hsched]
    rfl
  · intro s
    have : (s.shutdown).sched = .stopped := by
      cases h : s.sched <;> simp [WarmupScheduler.shutdown, as_shutdown, h]
    have hrun : (s.shutdown).running = false := rfl
    unfold WarmupScheduler.start
    rw [if_neg (by simp [hrun])]
    simp [this, as_start]

/-- C8 witness: from the freshly started wrapper (reachable in one step),
`stop()` then `start()` resumes cleanly to Running with the schedule
kept. -/
theorem scheduler_lifecycle_witness :
    WarmupScheduler.initial.start
        = Except.ok { running := true, sched := .running, jobsRegistered := true } ∧
    (∃ s₂, WarmupScheduler.stop
          { running := true, sched := .running, jobsRegistered := true }
        = Except.ok s₂ ∧ s₂.running = false ∧ s₂.jobsRegistered = true ∧
        s₂.start = Except.ok { running := true, sched := .running, jobsRegistered := true }) :=
  ⟨rfl,
   scheduler_lifecycle.2.2.1
     { running := true, sched := .running, jobsRegistered := true }
     (Reachable.start Reachable.init rfl) rfl⟩

/-- C4 witness: a concrete hard bounce against the single recipient
`r@y.com` with an empty prior log: one BOUNCE row, the recipient
deactivated, and both branch implications instantiated. -/
theorem hard_bounce_handling_witness :
    countKind (handle_failure { email := "a@x.com" } "r@y.com"
        { success := false, is_hard_bounce := true, error_message := "550 user unknown" }
        [{ email := "r@y.com" }] [] (5/100) "2024-01-01T12:00:00" "2024-01-02T12:00:00").logRows "BOUNCE" = 1 ∧
    (handle_failure { email := "a@x.com" } "r@y.com"
        { success := false, is_hard_bounce := true, error_message := "550 user unknown" }
        [{ email := "r@y.com" }] [] (5/100) "2024-01-01T12:00:00" "2024-01-02T12:00:00").recipients
        = deactivate [{ email := "r@y.com" }] "r@y.com" ∧
    (((count_sends_last_hours ([] ++ [bounce_row { email := "a@x.com" } "r@y.com" "2024-01-02T12:00:00"
          { success := false, is_hard_bounce := true, error_message := "550 user unknown" }]) "a@x.com" "2024-01-01T12:00:00") ≠ 0 ∧
      ((count_bounces_last_hours ([] ++ [bounce_row { email := "a@x.com" } "r@y.com" "2024-01-02T12:00:00"
          { success := false, is_hard_bounce := true, error_message := "550 user unknown" }]) "a@x.com" "2024-01-01T12:00:00" : ℚ)) /
        ((count_sends_last_hours ([] ++ [bounce_row { email := "a@x.com" } "r@y.com" "2024-01-02T12:00:00"
          { success := false, is_hard_bounce := true, error_message := "550 user unknown" }]) "a@x.com" "2024-01-01T12:00:00" : ℚ)) > (5/100 : ℚ)) →
      (handle_failure { email := "a@x.com" } "r@y.com"
        { success := false, is_hard_bounce := true, error_message := "550 user unknown" }
        [{ email := "r@y.com" }] [] (5/100) "2024-01-01T12:00:00" "2024-01-02T12:00:00").storeOps
          = [StoreOp.pauseInbox "a@x.com" "Auto-paused: bounce rate exceeded threshold"] ∧
      countKind (handle_failure { email := "a@x.com" } "r@y.com"
        { success := false, is_hard_bounce := true, error_message := "550 user unknown" }
        [{ email := "r@y.com" }] [] (5/100) "2024-01-01T12:00:00" "2024-01-02T12:00:00").logRows "PAUSE" = 1 ∧
      countEvent (handle_failure { email := "a@x.com" } "r@y.com"
        { success := false, is_hard_bounce := true, error_message := "550 user unknown" }
        [{ email := "r@y.com" }] [] (5/100) "2024-01-01T12:00:00" "2024-01-02T12:00:00").events "pause" = 1 ∧
      countEvent (handle_failure { email := "a@x.com" } "r@y.com"
        { success := false, is_hard_bounce := true, error_message := "550 user unknown" }
        [{ email := "r@y.com" }] [] (5/100) "2024-01-01T12:00:00" "2024-01-02T12:00:00").events "bounce" = 0) ∧
    (¬ ((count_sends_last_hours ([] ++ [bounce_row { email := "a@x.com" } "r@y.com" "2024-01-02T12:00:00"
          { success := false, is_hard_bounce := true, error_message := "550 user unknown" }]) "a@x.com" "2024-01-01T12:00:00") ≠ 0 ∧
      ((count_bounces_last_hours ([] ++ [bounce_row { email := "a@x.com" } "r@y.com" "2024-01-02T12:00:00"
          { success := false, is_hard_bounce := true, error_message := "550 user unknown" }]) "a@x.com" "2024-01-01T12:00:00" : ℚ)) /
        ((count_sends_last_hours ([] ++ [bounce_row { email := "a@x.com" } "r@y.com" "2024-01-02T12:00:00"
          { success := false, is_hard_bounce := true, error_message := "550 user unknown" }]) "a@x.com" "2024-01-01T12:00:00" : ℚ)) > (5/100 : ℚ)) →
      (handle_failure { email := "a@x.com" } "r@y.com"
        { success := false, is_hard_bounce := true, error_message := "550 user unknown" }
        [{ email := "r@y.com" }] [] (5/100) "2024-01-01T12:00:00" "2024-01-02T12:00:00").storeOps = [] ∧
      countKind (handle_failure { email := "a@x.com" } "r@y.com"
        { success := false, is_hard_bounce := true, error_message := "550 user unknown" }
        [{ email := "r@y.com" }] [] (5/100) "2024-01-01T12:00:00" "2024-01-02T12:00:00").logRows "PAUSE" = 0 ∧
      countEvent (handle_failure { email := "a@x.com" } "r@y.com"
        { success := false, is_hard_bounce := true, error_message := "550 user unknown" }
        [{ email := "r@y.com" }] [] (5/100) "2024-01-01T12:00:00" "2024-01-02T12:00:00").events "bounce" = 1 ∧
      countEvent (handle_failure { email := "a@x.com" } "r@y.com"
        { success := false, is_hard_bounce := true, error_message := "550 user unknown" }
        [{ email := "r@y.com" }] [] (5/100) "2024-01-01T12:00:00" "2024-01-02T12:00:00").events "pause" = 0) :=
  hard_bounce_handling { email := "a@x.com" } "r@y.com"
    { success := false, is_hard_bounce := true, error_message := "550 user unknown" }
    [{ email := "r@y.com" }] [] (5/100) "2024-01-01T12:00:00" "2024-01-02T12:00:00" rfl rfl
